import Mathlib

/-!
Verification of `src/elk/samples/entry_point.c`.

The program takes a static buffer `instr` of ten machine-code bytes, computes
`region = (size_t) instr & ~0xfff` (the address with its low twelve bits
cleared), calls `mprotect((void *) region, 0x1000, PROT_READ | PROT_EXEC)`,
and, when that call returns `0`, casts `instr` to `void (*)(void)` and calls
it; when the call returns nonzero it prints `errno` and returns `1` from
`main`.

The shallow embedding below models the address arithmetic on `Nat` with an
explicit 64-bit mask (`size_t` is 64 bits on the target platform), and models
one execution of `main` as the list of its observable actions, parametrised
by the blob address and by the outcome the operating system gives the single
`mprotect` call.
-/

namespace EntryPoint

/-- Value of `PROT_READ` from `<sys/mman.h>` on Linux. -/
def PROT_READ : Nat := 1

/-- Value of `PROT_WRITE` from `<sys/mman.h>` on Linux. -/
def PROT_WRITE : Nat := 2

/-- Value of `PROT_EXEC` from `<sys/mman.h>` on Linux. -/
def PROT_EXEC : Nat := 4

/-- The 64-bit value of the C expression `~0xfff` as it takes part in
`region & (~0xfff)`: `0xfff` is an `int`, `~0xfff` is the `int` `-4096`, and
its conversion to `size_t` for the `&` against the 64-bit `region` gives
`2^64 - 4096 = 0xfffffffffffff000`. -/
def addrMask : Nat := 0xfffffffffffff000

/-- Number of instruction bytes in the static buffer
`"\x48\x31\xff\xb8\x3c\x00\x00\x00\x0f\x05"` (ten bytes of machine code). -/
def instrLen : Nat := 10

/-- The Region Resolver of the program, lines 14-15 and the arguments of the
`mprotect` call on lines 19-22: `region = (size_t) instr;`
`region = region & (~0xfff);`, and the fixed length `0x1000` the program
passes to `mprotect`.  The result is the pair (base address, length). -/
def resolveRegion (instrAddr : Nat) : Nat × Nat :=
  (instrAddr &&& addrMask, 0x1000)

/-- Clearing the low twelve bits of a 64-bit value rounds it down to a
multiple of `2^12 = 4096`. -/
theorem land_addrMask (a : Nat) (h : a < 2 ^ 64) :
    a &&& addrMask = 2 ^ 12 * (a / 2 ^ 12) := by
  have hmask : addrMask = (2 ^ 52 - 1) <<< 12 := by
    rw [Nat.shiftLeft_eq]
    norm_num [addrMask]
  have hdiv : 2 ^ 12 * (a / 2 ^ 12) = (a >>> 12) <<< 12 := by
    rw [Nat.shiftLeft_eq, Nat.shiftRight_eq_div_pow]
    ring
  rw [hmask, hdiv]
  apply Nat.eq_of_testBit_eq
  intro i
  rw [Nat.testBit_land, Nat.testBit_shiftLeft, Nat.testBit_shiftLeft,
    Nat.testBit_two_pow_sub_one, Nat.testBit_shiftRight]
  by_cases h12 : 12 ≤ i
  · have hi : 12 + (i - 12) = i := by omega
    by_cases h64 : i < 64
    · have h52 : i - 12 < 52 := by omega
      simp [ge_iff_le, h12, h52, hi]
    · have hf : a.testBit i = false :=
        Nat.testBit_eq_false_of_lt
          (lt_of_lt_of_le h (Nat.pow_le_pow_right (by norm_num) (by omega)))
      have h52 : ¬ i - 12 < 52 := by omega
      simp [ge_iff_le, h12, h52, hi, hf]
  · simp [ge_iff_le, h12]

/-- The base the Resolver computes is the blob address rounded down to a
multiple of 4096. -/
theorem resolveRegion_base (a : Nat) (h : a < 2 ^ 64) :
    (resolveRegion a).1 = 4096 * (a / 4096) := by
  have hm := land_addrMask a h
  norm_num at hm
  simpa [resolveRegion] using hm

/-- Outcome the operating system gives the single `mprotect` call of a run:
the return value `ret` (`0` on success, `-1` on failure) and the value of
`errno` after the call. -/
structure MProtectOutcome where
  ret : Int
  errno : Nat
deriving DecidableEq

/-- The observable actions of `main`, one constructor per statement of the
source that has an external effect.  `main` contains no other effectful
statements: in particular it has no allocation, deallocation, or copy
operation, so no such event exists.
  * `printMainAddr`, `printInstrAddr`, `printPageVarAddr`, `printMakingExec`
    are the four `printf` calls before `mprotect` (the third one prints
    `&region`, the address of the local variable);
  * `mprotectCall addr len prot` is the `mprotect` call with its three
    arguments;
  * `printFailed e` is the `printf("failed, error: %d\n", errno)` call on
    the failure branch;
  * `printJump` is the `printf("doing the jump thing\n")` call;
  * `invoke addr` is the control transfer `f()` through the function pointer
    `void (*f)(void) = (void *) instr;` — a zero-argument call with no
    declared return value whose target is `addr`. -/
inductive Event where
  | printMainAddr
  | printInstrAddr
  | printPageVarAddr
  | printMakingExec
  | mprotectCall (addr len prot : Nat)
  | printFailed (e : Nat)
  | printJump
  | invoke (addr : Nat)
deriving DecidableEq

/-- One execution of `main` (lines 10-33), as the list of its observable
actions, given the blob address `instrAddr` and the outcome `os` the
operating system gives the `mprotect` call: the four diagnostic prints, the
`mprotect` call on the resolved region with `PROT_READ | PROT_EXEC`, then on
failure (`ret != 0`) the error print, and on success the jump print followed
by the control transfer to `instrAddr`. -/
def mainTrace (instrAddr : Nat) (os : MProtectOutcome) : List Event :=
  [Event.printMainAddr, Event.printInstrAddr, Event.printPageVarAddr,
    Event.printMakingExec,
    Event.mprotectCall (resolveRegion instrAddr).1 (resolveRegion instrAddr).2
      (PROT_READ ||| PROT_EXEC)]
  ++ (if os.ret ≠ 0 then [Event.printFailed os.errno]
      else [Event.printJump, Event.invoke instrAddr])

/-- The exit status `main` itself reports: `some 1` on `mprotect` failure
(`return 1;`), and `none` on success, where `main` reports no status of its
own before transferring control — what happens next is decided by the blob
(the ten bytes in this program perform an `exit(0)` system call and never
return). -/
def mainExit (os : MProtectOutcome) : Option Nat :=
  if os.ret ≠ 0 then some 1 else none

/-- Which events mutate the memory state of the process: only the `mprotect`
call does; the `printf` calls write to standard output and `invoke` is a
control transfer. -/
def isMemEffect : Event → Bool
  | Event.mprotectCall _ _ _ => true
  | _ => false

/-- C1: the claim quantifies over every power-of-two page size `P`, but the
program hard-codes the mask `~0xfff`, so the computed base is only aligned to
4096.  Concretely, for address `4096` and page size `P = 8192 = 2^13` the
computed base is `4096`, which is not a multiple of `8192`, and the region
length is `4096`, not one `8192`-byte page. -/
theorem C1_counterexample :
    ¬ (∀ A P : Nat, 0 < P → (∃ k, P = 2 ^ k) →
        (resolveRegion A).1 % P = 0 ∧ (resolveRegion A).2 = P) := by
  intro h
  exact absurd ((h 4096 8192 (by norm_num) ⟨13, by norm_num⟩).1) (by decide)

/-- C1 (amended to the page size 4096 the code hard-codes): for every 64-bit
address `a`, the Resolver's base is `a` rounded down to the nearest multiple
of 4096, the base is a multiple of 4096, the base is at most `a`, `a` lies
inside the region, and the length is exactly one 4096-byte page. -/
theorem C1_region_one_page (a : Nat) (h : a < 2 ^ 64) :
    (resolveRegion a).1 = 4096 * (a / 4096) ∧
    (resolveRegion a).1 % 4096 = 0 ∧
    (resolveRegion a).1 ≤ a ∧
    a < (resolveRegion a).1 + (resolveRegion a).2 ∧
    (resolveRegion a).2 = 4096 := by
  have hb := resolveRegion_base a h
  have hdm := Nat.div_add_mod a 4096
  have hlt : a % 4096 < 4096 := Nat.mod_lt a (by norm_num)
  refine ⟨hb, ?_, ?_, ?_, rfl⟩
  · rw [hb]
    exact Nat.mul_mod_right 4096 (a / 4096)
  · rw [hb]
    omega
  · rw [hb]
    show a < 4096 * (a / 4096) + 4096
    omega

/-- C1 witness: the amended statement at the concrete address 5000, whose
resolved region is `(4096, 4096)`. -/
theorem C1_witness :
    5000 < 2 ^ 64 ∧
    ((resolveRegion 5000).1 = 4096 * (5000 / 4096) ∧
      (resolveRegion 5000).1 % 4096 = 0 ∧
      (resolveRegion 5000).1 ≤ 5000 ∧
      5000 < (resolveRegion 5000).1 + (resolveRegion 5000).2 ∧
      (resolveRegion 5000).2 = 4096) :=
  ⟨by norm_num, C1_region_one_page 5000 (by norm_num)⟩

/-- C2: the program never extends the region.  A ten-byte blob at address
8188 ends at byte 8197 and so crosses the page boundary at 8192 (its last
byte is on a different page than its first), yet the computed region is
`(4096, 4096)`: one single page, ending at 8192, so bytes 8192-8197 of the
blob are left outside the region, and the length is not at least `2 * 4096`
as the claim requires for a blob straddling two pages. -/
theorem C2_straddling_blob_uncovered :
    (resolveRegion 8188).1 = 4096 ∧
    (resolveRegion 8188).2 = 4096 ∧
    8188 / 4096 ≠ (8188 + instrLen - 1) / 4096 ∧
    (resolveRegion 8188).1 + (resolveRegion 8188).2 < 8188 + instrLen ∧
    ¬ 2 * 4096 ≤ (resolveRegion 8188).2 := by
  decide

/-- C3: when `mprotect` fails (returns nonzero), the run is exactly the four
diagnostic prints, the `mprotect` call, and the print reporting the
operating-system `errno`; `main` returns `1`, and no control transfer into
the blob occurs. -/
theorem C3_failure_reported_no_invoke (a : Nat) (os : MProtectOutcome)
    (h : os.ret ≠ 0) :
    mainTrace a os =
      [Event.printMainAddr, Event.printInstrAddr, Event.printPageVarAddr,
        Event.printMakingExec,
        Event.mprotectCall (resolveRegion a).1 (resolveRegion a).2
          (PROT_READ ||| PROT_EXEC),
        Event.printFailed os.errno] ∧
    mainExit os = some 1 ∧
    ∀ x, Event.invoke x ∉ mainTrace a os := by
  refine ⟨by simp [mainTrace, h], by simp [mainExit, h], ?_⟩
  intro x
  simp [mainTrace, h]

/-- C3 witness: a failing run at address 5000 with `ret = -1` and
`errno = 13` (`EACCES`). -/
theorem C3_witness :
    (-1 : Int) ≠ 0 ∧
    (mainTrace 5000 ⟨-1, 13⟩ =
      [Event.printMainAddr, Event.printInstrAddr, Event.printPageVarAddr,
        Event.printMakingExec,
        Event.mprotectCall (resolveRegion 5000).1 (resolveRegion 5000).2
          (PROT_READ ||| PROT_EXEC),
        Event.printFailed 13] ∧
    mainExit ⟨-1, 13⟩ = some 1 ∧
    ∀ x, Event.invoke x ∉ mainTrace 5000 ⟨-1, 13⟩) :=
  ⟨by decide, C3_failure_reported_no_invoke 5000 ⟨-1, 13⟩ (by decide)⟩

/-- C4: the claim demands that a null blob address be rejected with a usage
error before any operating-system call, but the program contains no
validation at all (lines 10-22 have no branch before the `mprotect` call):
for blob address 0 the Resolver computes the region `(0, 4096)` and the
permission transition is attempted on it. -/
theorem C4_counterexample :
    (resolveRegion 0).1 = 0 ∧ (resolveRegion 0).2 = 4096 ∧
    Event.mprotectCall 0 4096 (PROT_READ ||| PROT_EXEC)
      ∈ mainTrace 0 ⟨-1, 12⟩ := by
  decide

/-- C4 (amended): no input is ever rejected — for every blob address and
every outcome, the first five actions of the run are the four diagnostic
prints followed by the `mprotect` attempt on the computed region; no
usage-error path exists in the program. -/
theorem C4_no_validation (a : Nat) (os : MProtectOutcome) :
    (mainTrace a os).take 5 =
      [Event.printMainAddr, Event.printInstrAddr, Event.printPageVarAddr,
        Event.printMakingExec,
        Event.mprotectCall (resolveRegion a).1 (resolveRegion a).2
          (PROT_READ ||| PROT_EXEC)] := rfl

/-- C5: the pipeline runs in strict order: the fifth action is the
`mprotect` call and its region arguments are exactly the Resolver's output;
a control transfer occurs exactly when `mprotect` succeeded, and its target
is the blob address; the run ends with the control transfer on success and
with the error report on failure, so a failure short-circuits the run with
no invocation. -/
theorem C5_pipeline_order (a : Nat) (os : MProtectOutcome) :
    ((mainTrace a os).take 5).getLast? =
      some (Event.mprotectCall (resolveRegion a).1 (resolveRegion a).2
        (PROT_READ ||| PROT_EXEC)) ∧
    (∀ x, Event.invoke x ∈ mainTrace a os ↔ x = a ∧ os.ret = 0) ∧
    (mainTrace a os).getLast? =
      some (if os.ret = 0 then Event.invoke a else Event.printFailed os.errno) := by
  refine ⟨rfl, ?_, ?_⟩
  · intro x
    by_cases hr : os.ret = 0 <;> simp [mainTrace, hr]
  · by_cases hr : os.ret = 0 <;> simp [mainTrace, hr]

/-- C5 witness: the pipeline-order statement at address 5000 for a
successful run. -/
theorem C5_witness :
    ((mainTrace 5000 ⟨0, 0⟩).take 5).getLast? =
      some (Event.mprotectCall (resolveRegion 5000).1 (resolveRegion 5000).2
        (PROT_READ ||| PROT_EXEC)) ∧
    (∀ x, Event.invoke x ∈ mainTrace 5000 ⟨0, 0⟩ ↔
      x = 5000 ∧ (MProtectOutcome.mk 0 0).ret = 0) ∧
    (mainTrace 5000 ⟨0, 0⟩).getLast? =
      some (if (MProtectOutcome.mk 0 0).ret = 0 then Event.invoke 5000
        else Event.printFailed (MProtectOutcome.mk 0 0).errno) :=
  C5_pipeline_order 5000 ⟨0, 0⟩

/-- C6: on a successful permission transition the run's final action is the
control transfer, and its target is the blob's starting address `a` itself
(the `f()` call through `void (*f)(void) = (void *) instr;`), not the
page-aligned region base. -/
theorem C6_invoke_blob_start (a : Nat) (os : MProtectOutcome)
    (h : os.ret = 0) :
    (mainTrace a os).getLast? = some (Event.invoke a) := by
  simp [mainTrace, h]

/-- C6 witness: a successful run at address 5000; the transfer target is
5000, which differs from the page-aligned region base 4096. -/
theorem C6_witness :
    (mainTrace 5000 ⟨0, 0⟩).getLast? = some (Event.invoke 5000) ∧
    (resolveRegion 5000).1 ≠ 5000 :=
  ⟨C6_invoke_blob_start 5000 ⟨0, 0⟩ rfl, by decide⟩

/-- C8: in every run the only event that mutates process memory state is the
single `mprotect` call on the Resolver's region of caller-supplied storage.
The event vocabulary covers every effectful statement of `main`, and the
source contains no allocation, free, or copy operation, so no run allocates
or frees pages or copies or frees the caller-owned blob. -/
theorem C8_only_memory_effect (a : Nat) (os : MProtectOutcome) :
    (mainTrace a os).filter isMemEffect =
      [Event.mprotectCall (resolveRegion a).1 (resolveRegion a).2
        (PROT_READ ||| PROT_EXEC)] := by
  by_cases hr : os.ret = 0 <;> simp [mainTrace, hr, isMemEffect]

/-- C9: every `mprotect` call in every run requests exactly
`PROT_READ | PROT_EXEC`: a protection with the execute bit set and the write
bit clear, so the program never requests write together with execute. -/
theorem C9_never_writable_executable (a : Nat) (os : MProtectOutcome)
    (addr len prot : Nat)
    (h : Event.mprotectCall addr len prot ∈ mainTrace a os) :
    prot = PROT_READ ||| PROT_EXEC ∧
    prot &&& PROT_WRITE = 0 ∧
    prot &&& PROT_EXEC ≠ 0 := by
  have hp : prot = PROT_READ ||| PROT_EXEC := by
    by_cases hr : os.ret = 0 <;> simp [mainTrace, hr] at h <;> tauto
  subst hp
  exact ⟨rfl, by decide, by decide⟩

/-- C9 witness: the `mprotect` event of a successful run at address 5000
requests `PROT_READ | PROT_EXEC`, which has no write bit. -/
theorem C9_witness :
    Event.mprotectCall (resolveRegion 5000).1 (resolveRegion 5000).2
      (PROT_READ ||| PROT_EXEC) ∈ mainTrace 5000 ⟨0, 0⟩ ∧
    ((PROT_READ ||| PROT_EXEC) = PROT_READ ||| PROT_EXEC ∧
      (PROT_READ ||| PROT_EXEC) &&& PROT_WRITE = 0 ∧
      (PROT_READ ||| PROT_EXEC) &&& PROT_EXEC ≠ 0) :=
  ⟨by decide,
    C9_never_writable_executable 5000 ⟨0, 0⟩ (resolveRegion 5000).1
      (resolveRegion 5000).2 (PROT_READ ||| PROT_EXEC) (by decide)⟩

/-- C10: the claim states that nothing happens between a successful
`mprotect` and the control transfer, but the program executes
`printf("doing the jump thing\n")` in between: in the successful run at
address 5000 the `mprotect` call is the event at index 4, the next event is
the jump print, and the control transfer only comes at index 6. -/
theorem C10_counterexample :
    (mainTrace 5000 ⟨0, 0⟩)[4]? =
      some (Event.mprotectCall 4096 4096 (PROT_READ ||| PROT_EXEC)) ∧
    (mainTrace 5000 ⟨0, 0⟩)[5]? = some Event.printJump ∧
    (mainTrace 5000 ⟨0, 0⟩)[6]? = some (Event.invoke 5000) ∧
    Event.printJump ≠ Event.invoke 5000 := by
  decide

/-- C10 (amended): `main` reports exit status 1 exactly when `mprotect`
returns nonzero, and reports no status of its own otherwise; after a
successful `mprotect` the only remaining actions are the single diagnostic
print `"doing the jump thing"` and the control transfer into the blob, and
after a failed one the only remaining action is the error report. -/
theorem C10_exit_status (a : Nat) (os : MProtectOutcome) :
    (mainExit os = some 1 ↔ os.ret ≠ 0) ∧
    (mainExit os = none ↔ os.ret = 0) ∧
    (mainTrace a os).drop 5 =
      (if os.ret = 0 then [Event.printJump, Event.invoke a]
        else [Event.printFailed os.errno]) := by
  by_cases hr : os.ret = 0 <;>
    refine ⟨by simp [mainExit, hr], by simp [mainExit, hr], by simp [mainTrace, hr]⟩

/-- C10 witness: the amended statement at address 5000 for a successful run
and, bundled, the failure case at `ret = -1`. -/
theorem C10_witness :
    ((mainExit ⟨0, 0⟩ = some 1 ↔ (MProtectOutcome.mk 0 0).ret ≠ 0) ∧
      (mainExit ⟨0, 0⟩ = none ↔ (MProtectOutcome.mk 0 0).ret = 0) ∧
      (mainTrace 5000 ⟨0, 0⟩).drop 5 =
        (if (MProtectOutcome.mk 0 0).ret = 0
          then [Event.printJump, Event.invoke 5000]
          else [Event.printFailed (MProtectOutcome.mk 0 0).errno])) :=
  C10_exit_status 5000 ⟨0, 0⟩

end EntryPoint
